import Mathlib

/-!
Shallow embedding of the orfon/telegram RingoJS client library
(src/lib/telegram.js and the utility module) together with proofs about
its envelope protocol, operation validation, payload construction and
stream handling.
-/

set_option linter.all false
set_option maxRecDepth 8000

namespace Telegram

/-- JavaScript numbers as they occur in this library: either a double holding
an exactly representable integral value, or a value that is not an integer
(fractional, NaN or infinite).  `Number.isSafeInteger` is false on the whole
second class, which is the only way the library ever inspects such values. -/
inductive JsNumber where
  | int (i : Int)
  | nonIntegral
deriving Repr

/-- JavaScript values as used by the library: `undefined`, `null`, booleans,
numbers, strings, objects (association lists of fields) and arrays. -/
inductive JsValue where
  | undefined
  | null
  | bool (b : Bool)
  | num (n : JsNumber)
  | str (s : String)
  | obj (fields : List (String × JsValue))
  | arr (elems : List JsValue)

/-- Shorthand for an integral JavaScript number value. -/
def jnum (i : Int) : JsValue := JsValue.num (JsNumber.int i)

/-- The loose-equality test `x == null`, true exactly for `null` and
`undefined`; every required-parameter guard of the library uses it. -/
def JsValue.isNullish : JsValue → Bool
  | .null => true
  | .undefined => true
  | _ => false

/-- JavaScript truthiness, used by the `if (options)` guard of
`editMessageCaption` (line 624).  The library only ever applies it to
objects and to absent arguments; the NaN corner (falsy in JavaScript but
conflated with other non-integral numbers here) is never exercised. -/
def JsValue.truthy : JsValue → Bool
  | .undefined => false
  | .null => false
  | .bool b => b
  | .num (.int i) => decide (i ≠ 0)
  | .num .nonIntegral => true
  | .str s => decide (s ≠ "")
  | .obj _ => true
  | .arr _ => true

/-- Property access `v.k` on a parsed JSON value: the field's value if `v` is
an object carrying it, `undefined` otherwise. -/
def JsValue.getField (v : JsValue) (k : String) : JsValue :=
  match v with
  | .obj fields => (fields.lookup k).getD .undefined
  | _ => .undefined

/-- The strict-equality test `v === true` at line 48. -/
def JsValue.isTrue : JsValue → Bool
  | .bool true => true
  | _ => false

/-- The guard `v.length > n` used by the bounded-string validations
(lines 764, 782, 872, 897): a string's length (an array's for completeness)
is compared numerically; on values without a numeric `length` the comparison
is `undefined > n`, which is false. -/
def JsValue.lenGt (v : JsValue) (bound : Nat) : Bool :=
  match v with
  | .str s => decide (bound < s.length)
  | .arr elems => decide (bound < elems.length)
  | _ => false

/-- The guard `Number.isSafeInteger(v)` at line 917: true only for doubles
holding an integral value of magnitude at most 2^53 - 1. -/
def JsValue.isSafeInteger : JsValue → Bool
  | .num (.int i) => decide (i.natAbs ≤ 9007199254740991)
  | _ => false

/-- The guard `v < 0` at line 917, applied to the position argument.  On
non-numbers and NaN the comparison is false; a negative fractional double
would compare true, but `isSafeInteger` has already rejected it, so the
distinction is unobservable in `setStickerPositionInSet`. -/
def JsValue.isNegative : JsValue → Bool
  | .num (.int i) => decide (i < 0)
  | _ => false

/-- Errors thrown by the library.  The JavaScript code throws `Error` objects
whose message strings identify the kind; the kinds are kept structured here,
with the exact data each message interpolates.

* `transportError`: line 43, non-200 HTTP status with the raw body.
* `apiError`: the throw at line 51 for an `ok: false` envelope.
* `decodeError`: the throw at line 54 inside the `catch` block; it wraps the
  caught inner failure (`none` when `JSON.parse` itself threw, `some e` when
  the caught exception was the library's own `apiError` throw).
* `validationError`: the "Insufficient parameters" throws of the operations,
  tagged by endpoint path.
* `referenceError`: evaluation of an identifier that is not bound in scope.
* `netError`: the transport function `request` itself threw. -/
inductive TgError where
  | transportError (status : Int) (body : String)
  | apiError (errorCode : JsValue) (descr : JsValue)
  | decodeError (wrapped : Option TgError)
  | validationError (endpoint : String)
  | referenceError (ident : String)
  | netError (msg : String)

/-- One HTTP exchange as seen by `processExchange`: the status, the raw body
text, and the verdict of the external JSON parser on that body (`JSON.parse`
is the serialization collaborator; `parsed = none` means it threw, otherwise
it returned the given value). -/
structure Exchange where
  status : Int
  content : String
  parsed : Option JsValue

/-- Lines 41-56.  The envelope decoder: a non-200 status throws the
transport error before any parsing; then the body is parsed inside a
`try` block whose `catch` rewraps ANY caught exception — including the
library's own `ok: false` throw at line 51 — into the generic
"Could not parse JSON response" error. -/
def processExchange (exchange : Exchange) : Except TgError JsValue :=
  if exchange.status ≠ 200 then
    .error (.transportError exchange.status exchange.content)
  else
    match exchange.parsed with
    | none => .error (.decodeError none)
    | some resp =>
      if (resp.getField "ok").isTrue then
        .ok (resp.getField "result")
      else
        .error (.decodeError (some
          (.apiError (resp.getField "error_code") (resp.getField "description"))))

/-! ## Streams and the multipart dispatch helper -/

/-- Identifier of a stream object handed out by the `io`/`fs` collaborators. -/
abbrev StreamId := Nat

/-- The state of all streams visible to a call: an association of stream ids
to their closed flag (later entries are shadowed by earlier ones), plus the
next id `openRaw` will allocate. -/
structure StreamWorld where
  closedMap : List (StreamId × Bool)
  next : StreamId

/-- The `stream.closed()` test used by the `finally` block at line 111. -/
def StreamWorld.isClosed (w : StreamWorld) (sid : StreamId) : Bool :=
  (w.closedMap.lookup sid).getD false

/-- The `stream.close()` call at line 112. -/
def StreamWorld.close (w : StreamWorld) (sid : StreamId) : StreamWorld :=
  ⟨(sid, true) :: w.closedMap, w.next⟩

/-- The `openRaw(source, "r")` call of the `fs` collaborator (line 29):
allocates a fresh open stream for the named path. -/
def openRaw (w : StreamWorld) : StreamId × StreamWorld :=
  (w.next, ⟨(w.next, false) :: w.closedMap, w.next + 1⟩)

/-- A source accepted by the `MultipartStream` constructor: an already-open
`Stream` supplied by the caller, or a `Path` the library must open itself.
Any other argument fails the `instanceof` checks at line 24. -/
inductive Source where
  | stream (sid : StreamId)
  | path (p : String)

/-- A constructed `MultipartStream` instance: the display name and the
stream the constructor stored (line 28-29).  The instance does not record
whether the stream was caller-supplied or opened from a path. -/
structure MPS where
  name : JsValue
  streamId : StreamId

/-- Lines 23-30.  The `MultipartStream` constructor: rejects a nullish name
(the invalid-`source` `instanceof` rejection is covered by `Source`),
stores a caller-supplied stream as-is, and opens a path via `openRaw`. -/
def mkMultipartStream (name : JsValue) (source : Source) (w : StreamWorld) :
    Except TgError (MPS × StreamWorld) :=
  if name.isNullish then
    .error (.validationError "MultipartStream")
  else
    match source with
    | .stream sid => .ok (⟨name, sid⟩, w)
    | .path _ =>
      let opened := openRaw w
      .ok (⟨name, opened.1⟩, opened.2)

/-- A value in a multipart payload: a `MultipartStream` instance (the
`instanceof` branch at line 87), or any other JavaScript value (coerced to
a string part at line 95). -/
inductive PValue where
  | js (v : JsValue)
  | part (m : MPS)

/-- The `payload[name] == null` test on multipart payload entries. -/
def PValue.isNullish : PValue → Bool
  | .js v => v.isNullish
  | .part _ => false

/-- What the external `request` call produces for one exchange: either an
HTTP exchange object, or a thrown transport failure. -/
inductive NetOutcome where
  | exchange (ex : Exchange)
  | netFailure (msg : String)

/-- The value of the `try` body at lines 100-108: the envelope decoder
applied to the exchange, or the rethrown transport failure. -/
def netResult : NetOutcome → Except TgError JsValue
  | .exchange ex => processExchange ex
  | .netFailure msg => .error (.netError msg)

/-- The `finally` block at lines 109-115: for every payload entry that is a
`MultipartStream` whose stream reports open, close that stream.  The loop
cannot tell caller-supplied streams from library-opened ones. -/
def closeParts (payload : List (String × PValue)) (w : StreamWorld) : StreamWorld :=
  payload.foldl
    (fun acc kv =>
      match kv.2 with
      | .part m => if acc.isClosed m.streamId then acc else acc.close m.streamId
      | .js _ => acc)
    w

/-- Lines 80-116.  The multipart dispatch helper `_requestMultipart`: the
part-encoding loop at lines 85-97 only builds the in-memory request body
(no stream state changes), the `try` body issues the request and decodes
the envelope, and the `finally` block closes the payload's streams on every
exit path before the result or error propagates.  (The
`!payload instanceof Object` guard at line 81 parses as
`(!payload) instanceof Object`, which is always false, so it is a no-op.) -/
def requestMultipart (payload : List (String × PValue)) (net : NetOutcome)
    (w : StreamWorld) : Except TgError JsValue × StreamWorld :=
  (netResult net, closeParts payload w)

/-! ## Payload construction -/

/-- Modelled from the spec: `merge` of the `ringo/utils/objects` module
imported at line 14.  The module belongs to the RingoJS platform, not to this
repository, so its semantics are taken from the spec's words: the merge of a
base payload with an optional mapping holds every key of either, and on a
key collision the optional mapping's value overrides the base value.  Here
the optional entries come first and only the base entries whose key is not
overridden are kept, so `List.lookup` realizes exactly that precedence. -/
def merge {α : Type} (base opts : List (String × α)) : List (String × α) :=
  opts ++ base.filter (fun kv => (opts.lookup kv.1).isNone)

/-- The call pattern `objects.merge(base, options)` of the operations, where
the trailing `options` argument may be absent: an absent mapping contributes
nothing. -/
def mergeOpt {α : Type} (base : List (String × α)) :
    Option (List (String × α)) → List (String × α)
  | some opts => merge base opts
  | none => base

/-- What an operation hands to a dispatch helper when validation passes:
the endpoint path plus either a JSON body value (`_request`, line 61) or a
multipart payload mapping (`_requestMultipart`, line 80). -/
inductive Dispatch where
  | json (path : String) (payload : JsValue)
  | multipart (path : String) (payload : List (String × PValue))

/-- The `ringo/utils/objects` module object imported at line 14, which
`editMessageCaption` (line 628) passes as its request payload.  Its actual
fields (utility functions) are irrelevant to every claim; it is modelled as
a distinguished non-nullish object value. -/
def objectsModule : JsValue := .obj [("merge", .str "function merge")]

/-! ## Operation catalog

Each operation is the denotation of the corresponding prototype method of
src/lib/telegram.js: it either throws (a `.error`) before any network
activity, or produces the `Dispatch` it passes to a dispatch helper. -/

/-- Lines 125-136.  `setWebhook`: a non-null `cert` takes the JSON branch
with a payload of only the url; a null/undefined `cert` takes the multipart
branch with both fields. -/
def setWebhook (url cert : JsValue) : Except TgError Dispatch :=
  if !cert.isNullish then
    .ok (.json "/setWebhook" (.obj [("url", url)]))
  else
    .ok (.multipart "/setWebhook" [("url", .js url), ("cert", .js cert)])

/-- Lines 143-145.  `getUpdates` forwards its options argument verbatim as
the JSON body (absent options become an empty request body in `_request`). -/
def getUpdates (options : JsValue) : Except TgError Dispatch :=
  .ok (.json "/getUpdates" options)

/-- Lines 162-171.  `sendMessage`. -/
def sendMessage (chatId text : JsValue)
    (options : Option (List (String × JsValue))) : Except TgError Dispatch :=
  if chatId.isNullish || text.isNullish then
    .error (.validationError "/sendMessage")
  else
    .ok (.json "/sendMessage"
      (.obj (mergeOpt [("chat_id", chatId), ("text", text)] options)))

/-- Lines 205-214.  `answerInlineQuery`.  The guard
`!results instanceof Array` parses as `(!results) instanceof Array` and is
always false, so only the two nullish checks are effective. -/
def answerInlineQuery (inlineQueryId results : JsValue)
    (options : Option (List (String × JsValue))) : Except TgError Dispatch :=
  if inlineQueryId.isNullish || results.isNullish then
    .error (.validationError "/answerInlineQuery")
  else
    .ok (.json "/answerInlineQuery"
      (.obj (mergeOpt [("inline_query_id", inlineQueryId), ("results", results)] options)))

/-- Lines 224-234.  `forwardMessage`. -/
def forwardMessage (chatId fromChatId messageId : JsValue)
    (options : Option (List (String × JsValue))) : Except TgError Dispatch :=
  if chatId.isNullish || fromChatId.isNullish || messageId.isNullish then
    .error (.validationError "/forwardMessage")
  else
    .ok (.json "/forwardMessage"
      (.obj (mergeOpt
        [("chat_id", chatId), ("from_chat_id", fromChatId), ("message_id", messageId)]
        options)))

/-- Lines 243-252.  `sendPhoto`. -/
def sendPhoto (chatId : JsValue) (photo : PValue)
    (options : Option (List (String × PValue))) : Except TgError Dispatch :=
  if chatId.isNullish || photo.isNullish then
    .error (.validationError "/sendPhoto")
  else
    .ok (.multipart "/sendPhoto"
      (mergeOpt [("chat_id", .js chatId), ("photo", photo)] options))

/-- Lines 261-270.  `sendAudio`. -/
def sendAudio (chatId : JsValue) (audio : PValue)
    (options : Option (List (String × PValue))) : Except TgError Dispatch :=
  if chatId.isNullish || audio.isNullish then
    .error (.validationError "/sendAudio")
  else
    .ok (.multipart "/sendAudio"
      (mergeOpt [("chat_id", .js chatId), ("audio", audio)] options))

/-- Lines 279-288.  `sendDocument`. -/
def sendDocument (chatId : JsValue) (document : PValue)
    (options : Option (List (String × PValue))) : Except TgError Dispatch :=
  if chatId.isNullish || document.isNullish then
    .error (.validationError "/sendDocument")
  else
    .ok (.multipart "/sendDocument"
      (mergeOpt [("chat_id", .js chatId), ("document", document)] options))

/-- Lines 297-306.  `sendSticker`. -/
def sendSticker (chatId : JsValue) (sticker : PValue)
    (options : Option (List (String × PValue))) : Except TgError Dispatch :=
  if chatId.isNullish || sticker.isNullish then
    .error (.validationError "/sendSticker")
  else
    .ok (.multipart "/sendSticker"
      (mergeOpt [("chat_id", .js chatId), ("sticker", sticker)] options))

/-- Lines 315-324.  `sendVideo`. -/
def sendVideo (chatId : JsValue) (video : PValue)
    (options : Option (List (String × PValue))) : Except TgError Dispatch :=
  if chatId.isNullish || video.isNullish then
    .error (.validationError "/sendVideo")
  else
    .ok (.multipart "/sendVideo"
      (mergeOpt [("chat_id", .js chatId), ("video", video)] options))

/-- Lines 333-342.  `sendVideoNote`. -/
def sendVideoNote (chatId : JsValue) (videoNote : PValue)
    (options : Option (List (String × PValue))) : Except TgError Dispatch :=
  if chatId.isNullish || videoNote.isNullish then
    .error (.validationError "/sendVideoNote")
  else
    .ok (.multipart "/sendVideoNote"
      (mergeOpt [("chat_id", .js chatId), ("video_note", videoNote)] options))

/-- Lines 351-360.  `sendVoice`. -/
def sendVoice (chatId : JsValue) (voice : PValue)
    (options : Option (List (String × PValue))) : Except TgError Dispatch :=
  if chatId.isNullish || voice.isNullish then
    .error (.validationError "/sendVoice")
  else
    .ok (.multipart "/sendVoice"
      (mergeOpt [("chat_id", .js chatId), ("voice", voice)] options))

/-- Lines 370-380.  `sendLocation`. -/
def sendLocation (chatId latitude longitude : JsValue)
    (options : Option (List (String × JsValue))) : Except TgError Dispatch :=
  if chatId.isNullish || latitude.isNullish || longitude.isNullish then
    .error (.validationError "/sendLocation")
  else
    .ok (.json "/sendLocation"
      (.obj (mergeOpt
        [("chat_id", chatId), ("latitude", latitude), ("longitude", longitude)]
        options)))

/-- Lines 392-404.  `sendVenue`. -/
def sendVenue (chatId latitude longitude title address : JsValue)
    (options : Option (List (String × JsValue))) : Except TgError Dispatch :=
  if chatId.isNullish || latitude.isNullish || longitude.isNullish ||
      title.isNullish || address.isNullish then
    .error (.validationError "/sendVenue")
  else
    .ok (.json "/sendVenue"
      (.obj (mergeOpt
        [("chat_id", chatId), ("latitude", latitude), ("longitude", longitude),
         ("title", title), ("address", address)]
        options)))

/-- Lines 414-424.  `sendContact`. -/
def sendContact (chatId phoneNumber firstName : JsValue)
    (options : Option (List (String × JsValue))) : Except TgError Dispatch :=
  if chatId.isNullish || phoneNumber.isNullish || firstName.isNullish then
    .error (.validationError "/sendContact")
  else
    .ok (.json "/sendContact"
      (.obj (mergeOpt
        [("chat_id", chatId), ("phone_number", phoneNumber), ("first_name", firstName)]
        options)))

/-- Lines 450-458.  `getUserProfilePhotos`. -/
def getUserProfilePhotos (userId : JsValue)
    (options : Option (List (String × JsValue))) : Except TgError Dispatch :=
  if userId.isNullish then
    .error (.validationError "/getUserProfilePhotos")
  else
    .ok (.json "/getUserProfilePhotos"
      (.obj (mergeOpt [("user_id", userId)] options)))

/-- Lines 465-473.  `getFile`.  The guard at line 466 reads the identifier
`getFile`, not the `fileId` parameter; the function is an anonymous
expression assigned to a prototype property, so no binding named `getFile`
exists in the module scope and evaluating the condition throws a
ReferenceError on every call, before any validation or dispatch. -/
def getFile (fileId : JsValue) : Except TgError Dispatch :=
  .error (.referenceError "getFile")

/-- Lines 592-600.  `answerCallbackQuery`. -/
def answerCallbackQuery (callbackQueryId : JsValue)
    (options : Option (List (String × JsValue))) : Except TgError Dispatch :=
  if callbackQueryId.isNullish then
    .error (.validationError "/answerCallbackQuery")
  else
    .ok (.json "/answerCallbackQuery"
      (.obj (mergeOpt [("callback_query_id", callbackQueryId)] options)))

/-- Lines 608-616.  `editMessageText`: its options argument is required. -/
def editMessageText (text : JsValue)
    (options : Option (List (String × JsValue))) : Except TgError Dispatch :=
  if text.isNullish || options.isNone then
    .error (.validationError "/editMessageText")
  else
    .ok (.json "/editMessageText" (.obj (mergeOpt [("text", text)] options)))

/-- Lines 623-629.  `editMessageCaption`: the guard `if (options)` throws
exactly on a truthy options argument, and the dispatched payload is the
imported `objects` utility module, not the options. -/
def editMessageCaption (options : JsValue) : Except TgError Dispatch :=
  if options.truthy then
    .error (.validationError "/editMessageCaption")
  else
    .ok (.json "/editMessageCaption" objectsModule)

/-- Lines 636-642.  `editMessageReplyMarkup`: forwards the (required)
options argument verbatim as the JSON body. -/
def editMessageReplyMarkup (options : JsValue) : Except TgError Dispatch :=
  if options.isNullish then
    .error (.validationError "/editMessageReplyMarkup")
  else
    .ok (.json "/editMessageReplyMarkup" options)

/-- Lines 676-685.  `restrictChatMember`: merges `options || \x7b\x7d`. -/
def restrictChatMember (chatId userId : JsValue)
    (options : Option (List (String × JsValue))) : Except TgError Dispatch :=
  if chatId.isNullish || userId.isNullish then
    .error (.validationError "/restrictChatMember")
  else
    .ok (.json "/restrictChatMember"
      (.obj (merge [("chat_id", chatId), ("user_id", userId)] (options.getD []))))

/-- Lines 695-704.  `promoteChatMember`. -/
def promoteChatMember (chatId userId : JsValue)
    (options : Option (List (String × JsValue))) : Except TgError Dispatch :=
  if chatId.isNullish || userId.isNullish then
    .error (.validationError "/promoteChatMember")
  else
    .ok (.json "/promoteChatMember"
      (.obj (merge [("chat_id", chatId), ("user_id", userId)] (options.getD []))))

/-- Lines 763-772.  `setChatTitle` with its 255-character bound. -/
def setChatTitle (chatId title : JsValue) : Except TgError Dispatch :=
  if chatId.isNullish || title.isNullish || title.lenGt 255 then
    .error (.validationError "/setChatTitle")
  else
    .ok (.json "/setChatTitle" (.obj [("chat_id", chatId), ("title", title)]))

/-- Lines 781-790.  `setChatDescription` with its 255-character bound. -/
def setChatDescription (chatId description : JsValue) : Except TgError Dispatch :=
  if chatId.isNullish || description.isNullish || description.lenGt 255 then
    .error (.validationError "/setChatDescription")
  else
    .ok (.json "/setChatDescription"
      (.obj [("chat_id", chatId), ("description", description)]))

/-- Lines 800-809.  `pinChatMessage`: merges `options || \x7b\x7d`. -/
def pinChatMessage (chatId messageId : JsValue)
    (options : Option (List (String × JsValue))) : Except TgError Dispatch :=
  if chatId.isNullish || messageId.isNullish then
    .error (.validationError "/pinChatMessage")
  else
    .ok (.json "/pinChatMessage"
      (.obj (merge [("chat_id", chatId), ("message_id", messageId)] (options.getD []))))

/-- Lines 871-883.  `createNewStickerSet` with its 64-character bounds on
name and title. -/
def createNewStickerSet (userId name title : JsValue) (pngSticker : PValue)
    (emojis : JsValue) (options : Option (List (String × PValue))) :
    Except TgError Dispatch :=
  if userId.isNullish || name.isNullish || name.lenGt 64 || title.isNullish ||
      title.lenGt 64 || pngSticker.isNullish || emojis.isNullish then
    .error (.validationError "/createNewStickerSet")
  else
    .ok (.multipart "/createNewStickerSet"
      (mergeOpt
        [("user_id", .js userId), ("name", .js name), ("title", .js title),
         ("png_sticker", pngSticker), ("emojis", .js emojis)]
        options))

/-- Lines 896-908.  `addStickerToSet` with its 64-character bounds on
name and title. -/
def addStickerToSet (userId name title : JsValue) (pngSticker : PValue)
    (emojis : JsValue) (options : Option (List (String × PValue))) :
    Except TgError Dispatch :=
  if userId.isNullish || name.isNullish || name.lenGt 64 || title.isNullish ||
      title.lenGt 64 || pngSticker.isNullish || emojis.isNullish then
    .error (.validationError "/addStickerToSet")
  else
    .ok (.multipart "/addStickerToSet"
      (mergeOpt
        [("user_id", .js userId), ("name", .js name), ("title", .js title),
         ("png_sticker", pngSticker), ("emojis", .js emojis)]
        options))

/-- Lines 916-925.  `setStickerPositionInSet` with its safe-integer and
nonnegativity guards on the position. -/
def setStickerPositionInSet (sticker position : JsValue) : Except TgError Dispatch :=
  if sticker.isNullish || !position.isSafeInteger || position.isNegative then
    .error (.validationError "/setStickerPositionInSet")
  else
    .ok (.json "/setStickerPositionInSet"
      (.obj [("sticker", sticker), ("position", position)]))

/-! ## Update helpers (utility module) -/

/-- An update object as consumed by `getHighestUpdateId`: a record carrying
the numeric `update_id` field. -/
structure Update where
  update_id : Int
deriving DecidableEq, Repr

/-- Lines 12-16 of the utility module.  `getHighestUpdateId`: a reduce over
the updates starting from 0, keeping the larger of the accumulator and each
`update_id`. -/
def getHighestUpdateId (updates : List Update) : Int :=
  updates.foldl (fun mx u => if u.update_id > mx then u.update_id else mx) 0

/-- A concrete title of 256 characters, one past the 255-character bound. -/
def overlongTitle : String := String.mk (List.replicate 256 'a')

/-- A concrete sticker-set name of 65 characters, one past the 64-character
bound. -/
def overlongName : String := String.mk (List.replicate 65 'b')

/-! ## Helper lemmas -/

theorem lookup_append {α : Type} (l1 l2 : List (String × α)) (k : String) :
    (l1 ++ l2).lookup k = Option.or (l1.lookup k) (l2.lookup k) := by
  induction l1 with
  | nil => simp [List.lookup]
  | cons hd tl ih =>
    obtain ⟨a, b⟩ := hd
    simp only [List.cons_append, List.lookup]
    cases h : (k == a) <;> simp [ih, Option.or]

theorem lookup_filter_not_overridden {α : Type} (opts base : List (String × α))
    (k : String) (h : opts.lookup k = none) :
    (base.filter (fun kv => (opts.lookup kv.1).isNone)).lookup k = base.lookup k := by
  induction base with
  | nil => simp
  | cons hd tl ih =>
    obtain ⟨a, b⟩ := hd
    by_cases hk : k = a
    · subst hk
      simp [List.filter, h, List.lookup, Option.isNone]
    · have hba : (k == a) = false := by simp [hk]
      cases hkeep : ((opts.lookup a).isNone : Bool)
      · simp [List.filter, hkeep, List.lookup, hba, ih]
      · simp [List.filter, hkeep, List.lookup, hba, ih]

theorem merge_lookup {α : Type} (base opts : List (String × α)) (k : String) :
    (merge base opts).lookup k = Option.or (opts.lookup k) (base.lookup k) := by
  rw [merge, lookup_append]
  cases h : opts.lookup k with
  | some v => simp [Option.or]
  | none => simp [Option.or, lookup_filter_not_overridden opts base k h]

theorem foldl_max_init_le (l : List Int) (init : Int) : init ≤ l.foldl max init := by
  induction l generalizing init with
  | nil => simp
  | cons hd tl ih => simpa using le_trans (le_max_left init hd) (ih (max init hd))

theorem mem_le_foldl_max (l : List Int) (init x : Int) (hx : x ∈ l) :
    x ≤ l.foldl max init := by
  induction l generalizing init with
  | nil => cases hx
  | cons hd tl ih =>
    rcases List.mem_cons.mp hx with h | h
    · subst h
      simpa using le_trans (le_max_right init x) (foldl_max_init_le tl (max init x))
    · simpa using ih (max init hd) h

theorem getHighestUpdateId_eq_foldl (updates : List Update) :
    getHighestUpdateId updates = (updates.map Update.update_id).foldl max 0 := by
  rw [getHighestUpdateId]
  generalize (0 : Int) = init
  induction updates generalizing init with
  | nil => simp
  | cons hd tl ih =>
    simp only [List.foldl, List.map]
    have hstep : (if hd.update_id > init then hd.update_id else init) = max init hd.update_id := by
      rw [max_def]; split <;> split <;> omega
    rw [hstep, ih]

theorem isClosed_close_self (w : StreamWorld) (sid : StreamId) :
    (w.close sid).isClosed sid = true := by
  simp [StreamWorld.close, StreamWorld.isClosed, List.lookup]

theorem isClosed_close_mono (w : StreamWorld) (sid sid2 : StreamId)
    (h : w.isClosed sid = true) : (w.close sid2).isClosed sid = true := by
  by_cases he : sid = sid2
  · subst he; exact isClosed_close_self w sid
  · have hb : (sid == sid2) = false := by simp [he]
    simpa [StreamWorld.close, StreamWorld.isClosed, List.lookup, hb] using h

theorem closeParts_isClosed_mono (payload : List (String × PValue)) (w : StreamWorld)
    (sid : StreamId) (h : w.isClosed sid = true) :
    (closeParts payload w).isClosed sid = true := by
  induction payload generalizing w with
  | nil => exact h
  | cons hd tl ih =>
    rw [closeParts, List.foldl_cons]
    apply ih
    cases hv : hd.2 with
    | js v => simpa [hv] using h
    | part m =>
      by_cases hc : w.isClosed m.streamId = true
      · simpa [hv, hc] using h
      · simp only [hv, hc]
        simpa using isClosed_close_mono w sid m.streamId h

theorem closeParts_closes (payload : List (String × PValue)) (w : StreamWorld)
    (k : String) (m : MPS) (hm : (k, PValue.part m) ∈ payload) :
    (closeParts payload w).isClosed m.streamId = true := by
  induction payload generalizing w with
  | nil => cases hm
  | cons hd tl ih =>
    rw [closeParts, List.foldl_cons]
    rcases List.mem_cons.mp hm with h | h
    · subst h
      apply closeParts_isClosed_mono
      by_cases hc : w.isClosed m.streamId = true
      · simpa [hc] using hc
      · simpa [hc] using isClosed_close_self w m.streamId
    · exact ih _ h

/-! ## Claim theorems -/

/-- Claim C1: the spec says an `ok: false` envelope on a 200 exchange fails
with an ApiError carrying `error_code` and `description`, not a DecodeError.
Evaluating the decoder shows the success half holds, but the error half does
not: the throw for the `ok: false` envelope happens inside the `try` block,
so the `catch` at line 53 rewraps it into the generic decode failure, and
the error the caller sees is the DecodeError wrapping, not the ApiError. -/
theorem processExchange_envelope_evaluation :
    (processExchange ⟨200, "ok envelope body", some (JsValue.obj
        [("ok", JsValue.bool true), ("result", JsValue.obj [("id", jnum 1)])])⟩
      = .ok (JsValue.obj [("id", jnum 1)])) ∧
    (processExchange ⟨200, "error envelope body", some (JsValue.obj
        [("ok", JsValue.bool false), ("error_code", jnum 400),
         ("description", JsValue.str "Bad Request")])⟩
      = .error (.decodeError (some
          (.apiError (jnum 400) (JsValue.str "Bad Request"))))) :=
  ⟨rfl, rfl⟩

/-- Claim C2: the spec says every operation with required parameters,
`getFile` included, fails with a ValidationError when a required parameter
is absent.  `getFile` does not: its guard at line 466 reads the unbound
identifier `getFile` instead of `fileId`, so every call — the missing-fileId
call included — throws a ReferenceError before the intended validation or
any dispatch can happen. -/
theorem getFile_throws_referenceError :
    ∀ fileId : JsValue,
      getFile fileId = Except.error (TgError.referenceError "getFile") :=
  fun _ => rfl

/-- Claim C3 counterexample: the claim says a stream the caller supplied
directly to the `MultipartStream` constructor is never closed by the
library.  Concretely: the caller hands stream 0 (open) to the constructor,
the descriptor is sent through the multipart dispatch on a successful
exchange, and afterwards stream 0 is closed — the `finally` block cannot
distinguish caller-supplied streams from library-opened ones. -/
theorem requestMultipart_closes_caller_stream :
    (mkMultipartStream (JsValue.str "cert.pem") (Source.stream 0) ⟨[(0, false)], 1⟩
      = .ok (⟨JsValue.str "cert.pem", 0⟩, ⟨[(0, false)], 1⟩)) ∧
    (StreamWorld.isClosed ⟨[(0, false)], 1⟩ 0 = false) ∧
    (((requestMultipart [("certificate", PValue.part ⟨JsValue.str "cert.pem", 0⟩)]
        (NetOutcome.exchange ⟨200, "ok envelope body", some (JsValue.obj
          [("ok", JsValue.bool true), ("result", JsValue.bool true)])⟩)
        ⟨[(0, false)], 1⟩).2).isClosed 0 = true) :=
  ⟨rfl, rfl, rfl⟩

/-- Claim C3 (amended): on every exit path of a multipart dispatch —
success, API error envelope, non-200 status, or transport failure, all
covered by the universally quantified outcome — the stream underlying every
upload descriptor in the payload is closed before the result or error
propagates, whether the library opened it from a path source or the caller
supplied it already open; and the dispatch result itself is exactly the
decoded outcome, unchanged by the cleanup. -/
theorem requestMultipart_closes_descriptor_streams (payload : List (String × PValue))
    (net : NetOutcome) (w : StreamWorld) (k : String) (m : MPS)
    (hm : (k, PValue.part m) ∈ payload) :
    ((requestMultipart payload net w).2).isClosed m.streamId = true ∧
    (requestMultipart payload net w).1 = netResult net :=
  ⟨closeParts_closes payload w k m hm, rfl⟩

/-- Witness for the amended C3 theorem at a concrete input: a one-entry
multipart payload dispatched into a transport failure still ends with its
descriptor's stream (id 5) closed. -/
theorem requestMultipart_closes_descriptor_streams_witness :
    (((requestMultipart [("photo", PValue.part ⟨JsValue.str "pic.png", 5⟩)]
        (NetOutcome.netFailure "connection reset") ⟨[(5, false)], 6⟩).2).isClosed 5 = true) ∧
    ((requestMultipart [("photo", PValue.part ⟨JsValue.str "pic.png", 5⟩)]
        (NetOutcome.netFailure "connection reset") ⟨[(5, false)], 6⟩).1
      = netResult (NetOutcome.netFailure "connection reset")) :=
  requestMultipart_closes_descriptor_streams _ _ _ "photo" ⟨JsValue.str "pic.png", 5⟩
    (by simp)

/-- Claim C5: an exchange whose status is not 200 fails with the transport
error carrying the status and the raw body, independently of whatever the
JSON parser would have said about the body (the parse verdict is quantified
and unused). -/
theorem processExchange_non200_transportError (status : Int) (content : String)
    (parsed : Option JsValue) (h : status ≠ 200) :
    processExchange ⟨status, content, parsed⟩ =
      .error (.transportError status content) := by
  simp [processExchange, h]

/-- Witness for C5: a 404 exchange fails with the transport error even
though its body parses as a well-formed success envelope. -/
theorem processExchange_non200_transportError_witness :
    processExchange ⟨404, "Not Found", some (JsValue.obj
        [("ok", JsValue.bool true), ("result", JsValue.bool true)])⟩ =
      .error (.transportError 404 "Not Found") :=
  processExchange_non200_transportError 404 "Not Found" _ (by decide)

/-- Claim C4: for every operation that accepts an optional options mapping,
the dispatched payload is the base payload of required wire fields merged
with the options, and on a key collision the optional value overrides the
base value.  The first conjunct is the override precedence of the
(spec-modelled) merge; the remaining conjuncts show, operation by operation,
that a validated call dispatches exactly that merge, with the caller's
options in the overriding position (`getUpdates` forwards its options
verbatim, which coincides with merging onto an empty base). -/
theorem options_merge_precedence :
    (∀ (α : Type) (base opts : List (String × α)) (k : String),
        (merge base opts).lookup k = Option.or (opts.lookup k) (base.lookup k)) ∧
    (∀ opts : List (String × JsValue),
        getUpdates (JsValue.obj opts) = .ok (.json "/getUpdates" (JsValue.obj opts)) ∧
        merge [] opts = opts) ∧
    (∀ (chatId text : JsValue) (opts : List (String × JsValue)),
        chatId.isNullish = false → text.isNullish = false →
        sendMessage chatId text (some opts) = .ok (.json "/sendMessage"
          (.obj (merge [("chat_id", chatId), ("text", text)] opts)))) ∧
    (∀ (inlineQueryId results : JsValue) (opts : List (String × JsValue)),
        inlineQueryId.isNullish = false → results.isNullish = false →
        answerInlineQuery inlineQueryId results (some opts) = .ok (.json "/answerInlineQuery"
          (.obj (merge [("inline_query_id", inlineQueryId), ("results", results)] opts)))) ∧
    (∀ (chatId fromChatId messageId : JsValue) (opts : List (String × JsValue)),
        chatId.isNullish = false → fromChatId.isNullish = false → messageId.isNullish = false →
        forwardMessage chatId fromChatId messageId (some opts) = .ok (.json "/forwardMessage"
          (.obj (merge [("chat_id", chatId), ("from_chat_id", fromChatId),
            ("message_id", messageId)] opts)))) ∧
    (∀ (chatId : JsValue) (photo : PValue) (opts : List (String × PValue)),
        chatId.isNullish = false → photo.isNullish = false →
        sendPhoto chatId photo (some opts) = .ok (.multipart "/sendPhoto"
          (merge [("chat_id", .js chatId), ("photo", photo)] opts))) ∧
    (∀ (chatId : JsValue) (audio : PValue) (opts : List (String × PValue)),
        chatId.isNullish = false → audio.isNullish = false →
        sendAudio chatId audio (some opts) = .ok (.multipart "/sendAudio"
          (merge [("chat_id", .js chatId), ("audio", audio)] opts))) ∧
    (∀ (chatId : JsValue) (document : PValue) (opts : List (String × PValue)),
        chatId.isNullish = false → document.isNullish = false →
        sendDocument chatId document (some opts) = .ok (.multipart "/sendDocument"
          (merge [("chat_id", .js chatId), ("document", document)] opts))) ∧
    (∀ (chatId : JsValue) (sticker : PValue) (opts : List (String × PValue)),
        chatId.isNullish = false → sticker.isNullish = false →
        sendSticker chatId sticker (some opts) = .ok (.multipart "/sendSticker"
          (merge [("chat_id", .js chatId), ("sticker", sticker)] opts))) ∧
    (∀ (chatId : JsValue) (video : PValue) (opts : List (String × PValue)),
        chatId.isNullish = false → video.isNullish = false →
        sendVideo chatId video (some opts) = .ok (.multipart "/sendVideo"
          (merge [("chat_id", .js chatId), ("video", video)] opts))) ∧
    (∀ (chatId : JsValue) (videoNote : PValue) (opts : List (String × PValue)),
        chatId.isNullish = false → videoNote.isNullish = false →
        sendVideoNote chatId videoNote (some opts) = .ok (.multipart "/sendVideoNote"
          (merge [("chat_id", .js chatId), ("video_note", videoNote)] opts))) ∧
    (∀ (chatId : JsValue) (voice : PValue) (opts : List (String × PValue)),
        chatId.isNullish = false → voice.isNullish = false →
        sendVoice chatId voice (some opts) = .ok (.multipart "/sendVoice"
          (merge [("chat_id", .js chatId), ("voice", voice)] opts))) ∧
    (∀ (chatId latitude longitude : JsValue) (opts : List (String × JsValue)),
        chatId.isNullish = false → latitude.isNullish = false → longitude.isNullish = false →
        sendLocation chatId latitude longitude (some opts) = .ok (.json "/sendLocation"
          (.obj (merge [("chat_id", chatId), ("latitude", latitude),
            ("longitude", longitude)] opts)))) ∧
    (∀ (chatId latitude longitude title address : JsValue) (opts : List (String × JsValue)),
        chatId.isNullish = false → latitude.isNullish = false → longitude.isNullish = false →
        title.isNullish = false → address.isNullish = false →
        sendVenue chatId latitude longitude title address (some opts) = .ok (.json "/sendVenue"
          (.obj (merge [("chat_id", chatId), ("latitude", latitude),
            ("longitude", longitude), ("title", title), ("address", address)] opts)))) ∧
    (∀ (chatId phoneNumber firstName : JsValue) (opts : List (String × JsValue)),
        chatId.isNullish = false → phoneNumber.isNullish = false → firstName.isNullish = false →
        sendContact chatId phoneNumber firstName (some opts) = .ok (.json "/sendContact"
          (.obj (merge [("chat_id", chatId), ("phone_number", phoneNumber),
            ("first_name", firstName)] opts)))) ∧
    (∀ (userId : JsValue) (opts : List (String × JsValue)),
        userId.isNullish = false →
        getUserProfilePhotos userId (some opts) = .ok (.json "/getUserProfilePhotos"
          (.obj (merge [("user_id", userId)] opts)))) ∧
    (∀ (callbackQueryId : JsValue) (opts : List (String × JsValue)),
        callbackQueryId.isNullish = false →
        answerCallbackQuery callbackQueryId (some opts) = .ok (.json "/answerCallbackQuery"
          (.obj (merge [("callback_query_id", callbackQueryId)] opts)))) ∧
    (∀ (text : JsValue) (opts : List (String × JsValue)),
        text.isNullish = false →
        editMessageText text (some opts) = .ok (.json "/editMessageText"
          (.obj (merge [("text", text)] opts)))) ∧
    (∀ (chatId userId : JsValue) (opts : List (String × JsValue)),
        chatId.isNullish = false → userId.isNullish = false →
        restrictChatMember chatId userId (some opts) = .ok (.json "/restrictChatMember"
          (.obj (merge [("chat_id", chatId), ("user_id", userId)] opts)))) ∧
    (∀ (chatId userId : JsValue) (opts : List (String × JsValue)),
        chatId.isNullish = false → userId.isNullish = false →
        promoteChatMember chatId userId (some opts) = .ok (.json "/promoteChatMember"
          (.obj (merge [("chat_id", chatId), ("user_id", userId)] opts)))) ∧
    (∀ (chatId messageId : JsValue) (opts : List (String × JsValue)),
        chatId.isNullish = false → messageId.isNullish = false →
        pinChatMessage chatId messageId (some opts) = .ok (.json "/pinChatMessage"
          (.obj (merge [("chat_id", chatId), ("message_id", messageId)] opts)))) ∧
    (∀ (userId name title : JsValue) (pngSticker : PValue) (emojis : JsValue)
        (opts : List (String × PValue)),
        userId.isNullish = false → name.isNullish = false → name.lenGt 64 = false →
        title.isNullish = false → title.lenGt 64 = false →
        pngSticker.isNullish = false → emojis.isNullish = false →
        createNewStickerSet userId name title pngSticker emojis (some opts) =
          .ok (.multipart "/createNewStickerSet"
            (merge [("user_id", .js userId), ("name", .js name), ("title", .js title),
              ("png_sticker", pngSticker), ("emojis", .js emojis)] opts))) ∧
    (∀ (userId name title : JsValue) (pngSticker : PValue) (emojis : JsValue)
        (opts : List (String × PValue)),
        userId.isNullish = false → name.isNullish = false → name.lenGt 64 = false →
        title.isNullish = false → title.lenGt 64 = false →
        pngSticker.isNullish = false → emojis.isNullish = false →
        addStickerToSet userId name title pngSticker emojis (some opts) =
          .ok (.multipart "/addStickerToSet"
            (merge [("user_id", .js userId), ("name", .js name), ("title", .js title),
              ("png_sticker", pngSticker), ("emojis", .js emojis)] opts))) := by
  refine ⟨fun α base opts k => merge_lookup base opts k,
    fun opts => ⟨rfl, by simp [merge]⟩,
    ?_, ?_, ?_, ?_, ?_, ?_, ?_, ?_, ?_, ?_, ?_, ?_, ?_, ?_, ?_, ?_, ?_, ?_, ?_, ?_, ?_⟩
  · intro chatId text opts h1 h2
    simp [sendMessage, mergeOpt, h1, h2]
  · intro inlineQueryId results opts h1 h2
    simp [answerInlineQuery, mergeOpt, h1, h2]
  · intro chatId fromChatId messageId opts h1 h2 h3
    simp [forwardMessage, mergeOpt, h1, h2, h3]
  · intro chatId photo opts h1 h2
    simp [sendPhoto, mergeOpt, h1, h2]
  · intro chatId audio opts h1 h2
    simp [sendAudio, mergeOpt, h1, h2]
  · intro chatId document opts h1 h2
    simp [sendDocument, mergeOpt, h1, h2]
  · intro chatId sticker opts h1 h2
    simp [sendSticker, mergeOpt, h1, h2]
  · intro chatId video opts h1 h2
    simp [sendVideo, mergeOpt, h1, h2]
  · intro chatId videoNote opts h1 h2
    simp [sendVideoNote, mergeOpt, h1, h2]
  · intro chatId voice opts h1 h2
    simp [sendVoice, mergeOpt, h1, h2]
  · intro chatId latitude longitude opts h1 h2 h3
    simp [sendLocation, mergeOpt, h1, h2, h3]
  · intro chatId latitude longitude title address opts h1 h2 h3 h4 h5
    simp [sendVenue, mergeOpt, h1, h2, h3, h4, h5]
  · intro chatId phoneNumber firstName opts h1 h2 h3
    simp [sendContact, mergeOpt, h1, h2, h3]
  · intro userId opts h1
    simp [getUserProfilePhotos, mergeOpt, h1]
  · intro callbackQueryId opts h1
    simp [answerCallbackQuery, mergeOpt, h1]
  · intro text opts h1
    simp [editMessageText, mergeOpt, h1]
  · intro chatId userId opts h1 h2
    simp [restrictChatMember, h1, h2]
  · intro chatId userId opts h1 h2
    simp [promoteChatMember, h1, h2]
  · intro chatId messageId opts h1 h2
    simp [pinChatMessage, h1, h2]
  · intro userId name title pngSticker emojis opts h1 h2 h3 h4 h5 h6 h7
    simp [createNewStickerSet, mergeOpt, h1, h2, h3, h4, h5, h6, h7]
  · intro userId name title pngSticker emojis opts h1 h2 h3 h4 h5 h6 h7
    simp [addStickerToSet, mergeOpt, h1, h2, h3, h4, h5, h6, h7]

/-- Witness for C4 at a concrete input with a genuine key collision: a
`sendMessage` whose options carry their own `text` field dispatches the
merged payload, and the merged payload's `text` is the optional value while
its `chat_id` stays the base value. -/
theorem options_merge_precedence_witness :
    (sendMessage (jnum 7) (JsValue.str "hi") (some [("text", JsValue.str "override")]) =
      .ok (.json "/sendMessage" (.obj (merge [("chat_id", jnum 7), ("text", JsValue.str "hi")]
        [("text", JsValue.str "override")])))) ∧
    ((merge [("chat_id", jnum 7), ("text", JsValue.str "hi")]
        [("text", JsValue.str "override")]).lookup "text" = some (JsValue.str "override")) ∧
    ((merge [("chat_id", jnum 7), ("text", JsValue.str "hi")]
        [("text", JsValue.str "override")]).lookup "chat_id" = some (jnum 7)) := by
  obtain ⟨hlookup, hgu, hsm, hrest⟩ := options_merge_precedence
  exact ⟨hsm _ _ _ rfl rfl, (hlookup _ _ _ _).trans rfl, (hlookup _ _ _ _).trans rfl⟩

/-- Claim C6: for every string-bounded required field — `setChatTitle`'s
title and `setChatDescription`'s description bounded by 255 characters, and
`createNewStickerSet`'s / `addStickerToSet`'s name and title bounded by 64
characters — a call supplying a string whose length exceeds the bound fails
with the ValidationError before any dispatch, whatever the other arguments
are (the guard is a disjunction, so the over-bound field alone forces the
throw). -/
theorem bounded_string_validation :
    (∀ (chatId : JsValue) (s : String), 255 < s.length →
        setChatTitle chatId (JsValue.str s) =
          .error (.validationError "/setChatTitle")) ∧
    (∀ (chatId : JsValue) (s : String), 255 < s.length →
        setChatDescription chatId (JsValue.str s) =
          .error (.validationError "/setChatDescription")) ∧
    (∀ (userId title : JsValue) (pngSticker : PValue) (emojis : JsValue)
        (opts : Option (List (String × PValue))) (s : String), 64 < s.length →
        createNewStickerSet userId (JsValue.str s) title pngSticker emojis opts =
          .error (.validationError "/createNewStickerSet")) ∧
    (∀ (userId name : JsValue) (pngSticker : PValue) (emojis : JsValue)
        (opts : Option (List (String × PValue))) (s : String), 64 < s.length →
        createNewStickerSet userId name (JsValue.str s) pngSticker emojis opts =
          .error (.validationError "/createNewStickerSet")) ∧
    (∀ (userId title : JsValue) (pngSticker : PValue) (emojis : JsValue)
        (opts : Option (List (String × PValue))) (s : String), 64 < s.length →
        addStickerToSet userId (JsValue.str s) title pngSticker emojis opts =
          .error (.validationError "/addStickerToSet")) ∧
    (∀ (userId name : JsValue) (pngSticker : PValue) (emojis : JsValue)
        (opts : Option (List (String × PValue))) (s : String), 64 < s.length →
        addStickerToSet userId name (JsValue.str s) pngSticker emojis opts =
          .error (.validationError "/addStickerToSet")) := by
  refine ⟨?_, ?_, ?_, ?_, ?_, ?_⟩
  · intro chatId s h
    simp [setChatTitle, JsValue.lenGt, h]
  · intro chatId s h
    simp [setChatDescription, JsValue.lenGt, h]
  · intro userId title pngSticker emojis opts s h
    simp [createNewStickerSet, JsValue.lenGt, h]
  · intro userId name pngSticker emojis opts s h
    simp [createNewStickerSet, JsValue.lenGt, h]
  · intro userId title pngSticker emojis opts s h
    simp [addStickerToSet, JsValue.lenGt, h]
  · intro userId name pngSticker emojis opts s h
    simp [addStickerToSet, JsValue.lenGt, h]

/-- Witness for C6 at concrete over-bound strings: a 256-character title
fails `setChatTitle` and `setChatDescription`, and a 65-character name
fails `createNewStickerSet` and `addStickerToSet`, with every other
argument well-formed. -/
theorem bounded_string_validation_witness :
    (setChatTitle (jnum 1) (JsValue.str overlongTitle) =
      .error (.validationError "/setChatTitle")) ∧
    (setChatDescription (jnum 1) (JsValue.str overlongTitle) =
      .error (.validationError "/setChatDescription")) ∧
    (createNewStickerSet (jnum 1) (JsValue.str overlongName) (JsValue.str "t")
        (PValue.part ⟨JsValue.str "s.png", 0⟩) (JsValue.str "e") none =
      .error (.validationError "/createNewStickerSet")) ∧
    (addStickerToSet (jnum 1) (JsValue.str overlongName) (JsValue.str "t")
        (PValue.part ⟨JsValue.str "s.png", 0⟩) (JsValue.str "e") none =
      .error (.validationError "/addStickerToSet")) := by
  obtain ⟨ht, hd, hcn, hct, han, hat⟩ := bounded_string_validation
  exact ⟨ht _ _ (by decide), hd _ _ (by decide), hcn _ _ _ _ _ _ (by decide),
    han _ _ _ _ _ _ (by decide)⟩

/-- Claim C7: `setStickerPositionInSet` with a non-null sticker fails with
the ValidationError for every negative integral position and for every
non-integer position (the `Number.isSafeInteger` guard rejects the whole
non-integral class), and for position 0 it dispatches the JSON payload of
the sticker id and the position. -/
theorem setStickerPositionInSet_spec :
    (∀ (sticker : JsValue) (i : Int), sticker.isNullish = false → i < 0 →
        setStickerPositionInSet sticker (jnum i) =
          .error (.validationError "/setStickerPositionInSet")) ∧
    (∀ sticker : JsValue, sticker.isNullish = false →
        setStickerPositionInSet sticker (JsValue.num JsNumber.nonIntegral) =
          .error (.validationError "/setStickerPositionInSet")) ∧
    (∀ sticker : JsValue, sticker.isNullish = false →
        setStickerPositionInSet sticker (jnum 0) =
          .ok (.json "/setStickerPositionInSet"
            (.obj [("sticker", sticker), ("position", jnum 0)]))) := by
  refine ⟨?_, ?_, ?_⟩
  · intro sticker i h1 h2
    simp [setStickerPositionInSet, JsValue.isNegative, jnum, h1, h2]
  · intro sticker h1
    simp [setStickerPositionInSet, JsValue.isSafeInteger, h1]
  · intro sticker h1
    simp [setStickerPositionInSet, JsValue.isSafeInteger, JsValue.isNegative, jnum, h1]

/-- Witness for C7 at a concrete sticker id: position -1 and a non-integral
position fail, position 0 dispatches. -/
theorem setStickerPositionInSet_spec_witness :
    (setStickerPositionInSet (JsValue.str "fileid") (jnum (-1)) =
      .error (.validationError "/setStickerPositionInSet")) ∧
    (setStickerPositionInSet (JsValue.str "fileid") (JsValue.num JsNumber.nonIntegral) =
      .error (.validationError "/setStickerPositionInSet")) ∧
    (setStickerPositionInSet (JsValue.str "fileid") (jnum 0) =
      .ok (.json "/setStickerPositionInSet"
        (.obj [("sticker", JsValue.str "fileid"), ("position", jnum 0)]))) := by
  obtain ⟨hneg, hnon, hzero⟩ := setStickerPositionInSet_spec
  exact ⟨hneg _ _ rfl (by decide), hnon _ rfl, hzero _ rfl⟩

/-- Claim C8 counterexample: the claim says `getHighestUpdateId` returns
the maximum `update_id` over every sequence, but the reduce starts its
accumulator at 0, so a sequence whose only `update_id` is -1 yields 0, not
the maximum -1. -/
theorem getHighestUpdateId_negative_counterexample :
    getHighestUpdateId [⟨-1⟩] = 0 ∧ getHighestUpdateId [⟨-1⟩] ≠ -1 := by
  refine ⟨rfl, by decide⟩

/-- Claim C8 (amended): `getHighestUpdateId` returns the maximum of 0 and
the `update_id` values of the sequence — the maximum `update_id` whenever
all ids are nonnegative — with 0 for the empty sequence; in particular the
sequence of ids 3, 7, 5 yields 7. -/
theorem getHighestUpdateId_spec :
    (∀ updates : List Update,
        getHighestUpdateId updates = (updates.map Update.update_id).foldl max 0) ∧
    (∀ (updates : List Update) (u : Update), u ∈ updates →
        u.update_id ≤ getHighestUpdateId updates) ∧
    (∀ updates : List Update, 0 ≤ getHighestUpdateId updates) ∧
    getHighestUpdateId [] = 0 ∧
    getHighestUpdateId [⟨3⟩, ⟨7⟩, ⟨5⟩] = 7 := by
  refine ⟨getHighestUpdateId_eq_foldl, ?_, ?_, rfl, by decide⟩
  · intro updates u hu
    rw [getHighestUpdateId_eq_foldl]
    exact mem_le_foldl_max _ 0 _ (List.mem_map_of_mem _ hu)
  · intro updates
    rw [getHighestUpdateId_eq_foldl]
    exact foldl_max_init_le _ 0

/-- Witness for the amended C8 theorem at a concrete input: the update with
id 7 is bounded by the result on the 3, 7, 5 sequence. -/
theorem getHighestUpdateId_spec_witness :
    (7 : Int) ≤ getHighestUpdateId [⟨3⟩, ⟨7⟩, ⟨5⟩] :=
  getHighestUpdateId_spec.2.1 [⟨3⟩, ⟨7⟩, ⟨5⟩] ⟨7⟩ (by decide)

/-- Claim C9: `editMessageCaption` throws exactly when its options argument
is truthy (so every caller-supplied mapping, even an empty one, throws), and
with options absent it dispatches a JSON request whose payload is the
imported `objects` utility module — a non-absent value that is not the
caller's options. -/
theorem editMessageCaption_spec :
    (∀ options : JsValue, options.truthy = true →
        editMessageCaption options = .error (.validationError "/editMessageCaption")) ∧
    (∀ options : JsValue, options.truthy = false →
        editMessageCaption options = .ok (.json "/editMessageCaption" objectsModule)) ∧
    (editMessageCaption JsValue.undefined = .ok (.json "/editMessageCaption" objectsModule)) ∧
    objectsModule ≠ JsValue.undefined := by
  refine ⟨?_, ?_, rfl, fun h => JsValue.noConfusion h⟩
  · intro o h
    simp [editMessageCaption, h]
  · intro o h
    simp [editMessageCaption, h]

/-- Witness for C9 at concrete inputs: an empty options object (truthy)
throws; an absent options argument dispatches the module payload. -/
theorem editMessageCaption_spec_witness :
    (editMessageCaption (JsValue.obj []) = .error (.validationError "/editMessageCaption")) ∧
    (editMessageCaption JsValue.undefined = .ok (.json "/editMessageCaption" objectsModule)) := by
  obtain ⟨ht, hf, hu, hne⟩ := editMessageCaption_spec
  exact ⟨ht _ rfl, hf _ rfl⟩

/-- Claim C10: `setWebhook` with a non-null cert dispatches via the JSON
path with a payload of only the url field (the certificate is dropped),
while with cert absent it dispatches via the multipart path with a payload
carrying both the url and the absent cert field. -/
theorem setWebhook_spec :
    (∀ url cert : JsValue, cert.isNullish = false →
        setWebhook url cert = .ok (.json "/setWebhook" (.obj [("url", url)]))) ∧
    (∀ url cert : JsValue, cert.isNullish = true →
        setWebhook url cert =
          .ok (.multipart "/setWebhook" [("url", .js url), ("cert", .js cert)])) := by
  constructor <;> intro url cert h <;> simp [setWebhook, h]

/-- Witness for C10 at concrete inputs: a string certificate takes the JSON
branch and is dropped from the payload; an undefined certificate takes the
multipart branch with both fields. -/
theorem setWebhook_spec_witness :
    (setWebhook (JsValue.str "https-callback") (JsValue.str "certdata") =
      .ok (.json "/setWebhook" (.obj [("url", JsValue.str "https-callback")]))) ∧
    (setWebhook (JsValue.str "https-callback") JsValue.undefined =
      .ok (.multipart "/setWebhook"
        [("url", .js (JsValue.str "https-callback")), ("cert", .js JsValue.undefined)])) := by
  obtain ⟨hj, hm⟩ := setWebhook_spec
  exact ⟨hj _ _ rfl, hm _ _ rfl⟩

end Telegram
